import Mathlib

/-!
# Verification of the MicrogridSpy constraint-assembly core

Shallow embedding, in Lean 4, of the constraint-and-variable assembly
engine and the multi-objective Pareto-front driver of the
Microgridspy-tes-integration repository (`microgridspy/model/model.py`,
`microgridspy/model/utils.py`, and the constraint modules under
`microgridspy/model/constraints/`).

Conventions of the embedding:
* Machine floats of the Python code are modelled as exact rationals `ℚ`;
  the claims under study concern the algebraic structure of the
  constraints, not floating-point rounding.
* linopy variables are modelled as assignment structures: a record of
  functions from the index sets (years, periods, steps, technology
  indices, all zero-based `ℕ` indices) to `ℚ`.  A linopy constraint that
  is vectorised over an index dimension is unrolled into one scalar
  constraint per index value, which is exactly its meaning.  The
  scenario and intra-year period dimensions of the energy-balance
  module are suppressed where every operation is pointwise in them.
* Each `add_*_constraints` Python function becomes a Lean function that
  returns the `List` of constraints it adds to the shared linopy model,
  in the order the Python loops add them.
-/

namespace MicrogridSpy

/-- Direction of a (in)equality constraint added to the linopy model. -/
inductive Rel where
  | le
  | ge
  | eq
deriving DecidableEq, Repr

/-- One scalar constraint over an assignment type `σ`: a name (as passed
to `model.add_constraints`), a relation, and the two sides evaluated
against an assignment of the decision variables. -/
structure Constraint (σ : Type) where
  name : String
  rel : Rel
  lhs : σ → ℚ
  rhs : σ → ℚ

/-- Whether an assignment `ν` satisfies a single constraint. -/
def Constraint.holds {σ : Type} (c : Constraint σ) (ν : σ) : Prop :=
  match c.rel with
  | Rel.le => c.lhs ν ≤ c.rhs ν
  | Rel.ge => c.rhs ν ≤ c.lhs ν
  | Rel.eq => c.lhs ν = c.rhs ν

instance {σ : Type} : (c : Constraint σ) → (ν : σ) → Decidable (c.holds ν)
  | ⟨_, Rel.le, _, _⟩, _ => inferInstanceAs (Decidable (_ ≤ _))
  | ⟨_, Rel.ge, _, _⟩, _ => inferInstanceAs (Decidable (_ ≤ _))
  | ⟨_, Rel.eq, _, _⟩, _ => inferInstanceAs (Decidable (_ = _))

/-- Whether an assignment satisfies every constraint of a list. -/
def satisfiesAll {σ : Type} (cs : List (Constraint σ)) (ν : σ) : Prop :=
  ∀ c ∈ cs, c.holds ν

instance {σ : Type} (cs : List (Constraint σ)) (ν : σ) :
    Decidable (satisfiesAll cs ν) :=
  List.decidableBAll _ cs

/-! ## `operate_discount_rate` (`microgridspy/model/utils.py`)

Financial inputs read by `operate_discount_rate` from the project
parameters. `wacc_calculation` is the integer toggle of the advanced
settings (the Python code tests `wacc_calculation == 1`). -/

structure FinanceData where
  wacc_calculation : ℕ
  equity_share : ℚ
  debt_share : ℚ
  cost_of_debt : ℚ
  tax : ℚ
  cost_of_equity : ℚ
  discount_rate : ℚ
deriving Repr

/-- Embedding of `operate_discount_rate` from
`microgridspy/model/utils.py`: WACC when the toggle is `1` (with the
pure-debt special case for zero equity), otherwise the user-supplied
discount rate. -/
def operate_discount_rate (d : FinanceData) : ℚ :=
  if d.wacc_calculation = 1 then
    if d.equity_share = 0 then
      d.cost_of_debt * (1 - d.tax)
    else
      let leverage := d.debt_share / d.equity_share
      d.cost_of_debt * (1 - d.tax) * leverage / (1 + leverage) +
        d.cost_of_equity / (1 + leverage)
  else
    d.discount_rate

end MicrogridSpy

namespace MicrogridSpy

/-! ## Generator capacity-expansion constraints
(`add_generator_capacity_expansion_constraints` in
`microgridspy/model/constraints/generator_constraints.py`) -/

/-- Decision variables of the generator module.  `generator_units` is
indexed by (investment step, generator type); the production and fuel
variables by (year, generator type). -/
structure GenAssign where
  generator_units : ℕ → ℕ → ℚ
  generator_energy_production : ℕ → ℕ → ℚ
  generator_fuel_consumption : ℕ → ℕ → ℚ

/-- Static data consumed by the generator constraint module.  Index
sets are zero-based: `years = 0, …, nYears-1` (offsets from
`years[0]`), `steps = 0, …, nSteps-1`, generator types
`0, …, nGen-1`, sample points `0, …, nSamplePoints-1`. -/
structure GenConfig where
  nYears : ℕ
  nSteps : ℕ
  nGen : ℕ
  stepDuration : ℕ
  partialLoad : Bool
  brownfield : Bool
  nominalCapacity : ℕ → ℚ
  nominalEfficiency : ℕ → ℚ
  fuelLHV : ℕ → ℚ
  nSamplePoints : ℕ
  sampledRelativeOutput : ℕ → ℚ
  sampledEfficiency : ℕ → ℕ → ℚ
  existingYears : ℕ → ℚ
  lifetime : ℕ → ℚ
  existingCapacity : ℕ → ℚ

/-- The investment step of a year: the code builds
`years_steps_tuples[i] = (…, steps[i // step_duration])` and looks it
up at `i = year - years[0]`. -/
def GenConfig.stepOf (cfg : GenConfig) (yearIdx : ℕ) : ℕ :=
  yearIdx / cfg.stepDuration

/-- The single capacity-expansion constraint added for a step and a
generator type: `generator_units[step] >= generator_units[step-1]`. -/
def capexCon (step g : ℕ) : Constraint GenAssign :=
  { name := "Generator Min Step Units Constraint - Step " ++ toString step
    rel := Rel.ge
    lhs := fun ν => ν.generator_units step g
    rhs := fun ν => ν.generator_units (step - 1) g }

/-- Embedding of `add_generator_capacity_expansion_constraints`: for
every step after the first, `generator_units[step] >=
generator_units[step-1]`, vectorised over generator types (unrolled
here to one constraint per generator type). -/
def generatorCapacityExpansionConstraints (cfg : GenConfig) :
    List (Constraint GenAssign) :=
  ((List.range cfg.nSteps).drop 1).flatMap (fun step =>
    (List.range cfg.nGen).map (fun g => capexCon step g))

/-! ## Generator fuel-consumption constraints
(`add_generator_fuel_consumption_constraints` in
`microgridspy/model/constraints/generator_constraints.py`) -/

/-- The fuel-consumption equality added when partial-load modelling is
disabled: `fuel == energy / (nominal_efficiency * fuel_LHV)`. -/
def genFuelEqCon (cfg : GenConfig) (y g : ℕ) : Constraint GenAssign :=
  { name := "Fuel Consumption Constraint - Year " ++ toString y ++
      ", Type " ++ toString g
    rel := Rel.eq
    lhs := fun ν => ν.generator_fuel_consumption y g
    rhs := fun ν => ν.generator_energy_production y g /
      (cfg.nominalEfficiency g * cfg.fuelLHV g) }

/-- The secant lower bound added for one piecewise segment when
partial-load modelling is enabled.  `p0`, `p1` are the sampled relative
outputs scaled by nominal capacity, `fc0`, `fc1` the fuel consumptions
at the sampled efficiencies, and `slope` the secant slope (`0.0` for a
flat segment, as in the Python code). -/
def genFuelSegCon (cfg : GenConfig) (y g seg : ℕ) : Constraint GenAssign :=
  let p0 := cfg.sampledRelativeOutput seg * cfg.nominalCapacity g
  let p1 := cfg.sampledRelativeOutput (seg + 1) * cfg.nominalCapacity g
  let fc0 := p0 / (cfg.sampledEfficiency seg g * cfg.fuelLHV g)
  let fc1 := p1 / (cfg.sampledEfficiency (seg + 1) g * cfg.fuelLHV g)
  let slope := if p1 - p0 ≠ 0 then (fc1 - fc0) / (p1 - p0) else 0
  { name := "Partial Load Constraint - Segment " ++ toString seg ++
      ", Year " ++ toString y ++ ", Type " ++ toString g
    rel := Rel.ge
    lhs := fun ν => ν.generator_fuel_consumption y g
    rhs := fun ν =>
      slope * (ν.generator_energy_production y g -
          p0 * ν.generator_units (cfg.stepOf y) g) +
        fc0 * ν.generator_units (cfg.stepOf y) g }

/-- Embedding of `add_generator_fuel_consumption_constraints`: per year
and generator type, either the single nominal-efficiency equality
(partial load disabled) or one secant lower bound per adjacent pair of
sample points (the code takes `n_segments = shape - 1` segments). -/
def generatorFuelConsumptionConstraints (cfg : GenConfig) :
    List (Constraint GenAssign) :=
  (List.range cfg.nYears).flatMap (fun y =>
    (List.range cfg.nGen).flatMap (fun g =>
      match cfg.partialLoad with
      | false => [genFuelEqCon cfg y g]
      | true => (List.range (cfg.nSamplePoints - 1)).map
          (fun seg => genFuelSegCon cfg y g seg)))

/-! ## Brownfield maximum-production constraints
(`add_generator_max_energy_production_constraint`, brownfield branch) -/

/-- The maximum-production constraint the brownfield branch adds for a
year (as zero-based offset from `years[0]`) and a generator type: the
code computes `total_age = existing_years + (year - years[0])`, flags
`lifetime_exceeded = total_age > lifetime`, and adds the existing
capacity to the bound only when the lifetime is not exceeded. -/
def brownfieldMaxProdCon (cfg : GenConfig) (y g : ℕ) : Constraint GenAssign :=
  let totalAge : ℚ := cfg.existingYears g + (y : ℚ)
  { name := "Generator Energy Production Constraint - Year " ++ toString y ++
      ", Type " ++ toString g
    rel := Rel.le
    lhs := fun ν => ν.generator_energy_production y g
    rhs := fun ν =>
      ν.generator_units (cfg.stepOf y) g * cfg.nominalCapacity g +
        (if cfg.lifetime g < totalAge then 0 else cfg.existingCapacity g) }

/-- Embedding of the brownfield branch of
`add_generator_max_energy_production_constraint` (the claim under
study concerns only brownfield mode). -/
def generatorMaxProductionBrownfieldConstraints (cfg : GenConfig) :
    List (Constraint GenAssign) :=
  (List.range cfg.nYears).flatMap (fun y =>
    (List.range cfg.nGen).map (fun g => brownfieldMaxProdCon cfg y g))

/-- Specification-side availability predicate: existing capacity of
generator `g` is available at year offset `y` iff
`existing_years + (y - years[0]) <= lifetime`. -/
def GenConfig.includesExisting (cfg : GenConfig) (g y : ℕ) : Prop :=
  cfg.existingYears g + (y : ℚ) ≤ cfg.lifetime g

instance (cfg : GenConfig) (g y : ℕ) :
    Decidable (cfg.includesExisting g y) :=
  inferInstanceAs (Decidable (_ ≤ _))

/-- A concrete brownfield configuration: one generator type with
existing capacity 7 of age 9 years, lifetime 10, nominal capacity 5,
over a six-year horizon with yearly investment steps. -/
def brownfieldCfgEx : GenConfig :=
  { nYears := 6, nSteps := 6, nGen := 1, stepDuration := 1
    partialLoad := false, brownfield := true
    nominalCapacity := fun _ => 5, nominalEfficiency := fun _ => 1
    fuelLHV := fun _ => 1, nSamplePoints := 0
    sampledRelativeOutput := fun _ => 0
    sampledEfficiency := fun _ _ => 1
    existingYears := fun _ => 9, lifetime := fun _ => 10
    existingCapacity := fun _ => 7 }

/-- A concrete assignment with one generator unit installed at every
step and a production of 12 in every year. -/
def brownfieldNuEx : GenAssign :=
  { generator_units := fun _ _ => 1
    generator_energy_production := fun _ _ => 12
    generator_fuel_consumption := fun _ _ => 0 }

/-! ## Energy-balance constraints
(`add_energy_balance_constraints` in
`microgridspy/model/constraints/energy_balance.py`)

The scenario and intra-year period dimensions are suppressed: every
operation of the Python function is pointwise in them, so the embedding
works with the per-year scalars. -/

/-- Sum of `f` over the indices `0, …, n-1` (the model of a linopy
`.sum(dim)` over a technology dimension). -/
def sumRange (n : ℕ) (f : ℕ → ℚ) : ℚ := ∑ i ∈ Finset.range n, f i

/-- Static data consumed by the energy-balance module. -/
structure EBConfig where
  nYears : ℕ
  stepDuration : ℕ
  nRes : ℕ
  nGen : ℕ
  hasBattery : Bool
  hasGenerator : Bool
  hasGridConnection : Bool
  gridConnectionType : ℕ
  milpFormulation : Bool
  lostLoadFraction : ℚ
  resConnectedToBattery : ℕ → Bool
  resInverterEfficiency : ℕ → ℚ
  batteryInverterEffDCAC : ℚ
  batteryInverterEffACDC : ℚ
  generatorRectifierEfficiency : ℕ → ℚ
  gridToMicrogridEfficiency : ℚ
  microgridToGridEfficiency : ℚ
  bigM : ℕ → ℚ
  demand : ℕ → ℚ

/-- The investment step of a year:
`years_steps_tuples[i] = (…, steps[i // step_duration])` looked up at
`i = year - years[0]`. -/
def EBConfig.stepOf (cfg : EBConfig) (y : ℕ) : ℕ := y / cfg.stepDuration

/-- `any(RES_CONNECTED_TO_BATTERY[res] for res in renewable_sources)`. -/
def EBConfig.anyResConnected (cfg : EBConfig) : Bool :=
  (List.range cfg.nRes).any (fun r => cfg.resConnectedToBattery r)

/-- Decision variables touched by the energy-balance module.
`res_energy_production` is indexed by (step, source); the other
technology-indexed variables by (year, index); the rest by year. -/
structure EBAssign where
  res_energy_production : ℕ → ℕ → ℚ
  curtailment : ℕ → ℕ → ℚ
  res_conversion_losses : ℕ → ℕ → ℚ
  battery_outflow : ℕ → ℚ
  battery_inflow : ℕ → ℚ
  battery_conversion_losses : ℕ → ℚ
  dc_system_energy : ℕ → ℚ
  dc_system_energy_positive : ℕ → ℚ
  dc_system_energy_negative : ℕ → ℚ
  single_flow_dc_system : ℕ → ℚ
  ones : ℕ → ℚ
  dc_system_feed_in_losses : ℕ → ℚ
  dc_system_charge_losses : ℕ → ℚ
  generator_energy_production : ℕ → ℕ → ℚ
  generator_conversion_losses : ℕ → ℕ → ℚ
  energy_from_grid : ℕ → ℚ
  energy_to_grid : ℕ → ℚ
  grid_conversion_losses : ℕ → ℚ
  lost_load : ℕ → ℚ

/-- The `yearly_energy_production` expression as the Python loop
accumulates it: renewable production at the year's step minus
curtailment, then battery net outflow, generator production, net
grid import and lost load, each added only when the corresponding
subsystem is enabled. -/
def yearlyEnergyProduction (cfg : EBConfig) (y : ℕ) (ν : EBAssign) : ℚ :=
  let base := sumRange cfg.nRes (fun r => ν.res_energy_production (cfg.stepOf y) r) -
    sumRange cfg.nRes (fun r => ν.curtailment y r)
  let withBattery :=
    if cfg.hasBattery then base + (ν.battery_outflow y - ν.battery_inflow y)
    else base
  let withGen :=
    if cfg.hasGenerator then
      withBattery + sumRange cfg.nGen (fun g => ν.generator_energy_production y g)
    else withBattery
  let withGrid :=
    if cfg.hasGridConnection then
      if cfg.gridConnectionType = 1 then
        withGen + (ν.energy_from_grid y - ν.energy_to_grid y)
      else withGen + ν.energy_from_grid y
    else withGen
  if cfg.lostLoadFraction > 0 then withGrid + ν.lost_load y else withGrid

/-- The `yearly_conversion_losses` expression as the Python loop
accumulates it: renewable inverter losses, battery-system losses
(through the DC-bus loss variables when some source is DC-coupled,
otherwise the inverter-loss expression), generator rectifier losses and
grid conversion losses. -/
def yearlyConversionLosses (cfg : EBConfig) (y : ℕ) (ν : EBAssign) : ℚ :=
  let resLosses := sumRange cfg.nRes (fun r =>
    (ν.res_energy_production (cfg.stepOf y) r - ν.curtailment y r) *
      (1 - cfg.resInverterEfficiency r))
  let withBattery :=
    if cfg.hasBattery then
      if cfg.anyResConnected then
        resLosses + (ν.dc_system_feed_in_losses y - ν.dc_system_charge_losses y)
      else
        resLosses + (ν.battery_outflow y * (1 - cfg.batteryInverterEffDCAC) +
          ν.battery_inflow y * (1 / cfg.batteryInverterEffACDC - 1))
    else resLosses
  let withGen :=
    if cfg.hasGenerator then
      withBattery + sumRange cfg.nGen (fun g =>
        ν.generator_energy_production y g *
          (1 - cfg.generatorRectifierEfficiency g))
    else withBattery
  if cfg.hasGridConnection then
    if cfg.gridConnectionType = 1 then
      withGen + (ν.energy_from_grid y * (1 - cfg.gridToMicrogridEfficiency) +
        ν.energy_to_grid y * (1 / cfg.microgridToGridEfficiency - 1))
    else withGen + ν.energy_from_grid y * (1 - cfg.gridToMicrogridEfficiency)
  else withGen

/-- The per-year energy-balance constraint the function finally adds:
an exact equality between net yearly production and the DEMAND
parameter of that year. -/
def energyBalanceCon (cfg : EBConfig) (y : ℕ) : Constraint EBAssign :=
  { name := "Energy Balance Constraint - Year " ++ toString y
    rel := Rel.eq
    lhs := fun ν => yearlyEnergyProduction cfg y ν - yearlyConversionLosses cfg y ν
    rhs := fun _ => cfg.demand y }

/-- The auxiliary constraints `add_energy_balance_constraints` adds for
one year before the balance equality: renewable positivity and
conversion-loss definitions, the battery/DC-bus block, the generator
loss definitions and the grid loss definition. -/
def energyBalanceAuxCons (cfg : EBConfig) (y : ℕ) : List (Constraint EBAssign) :=
  ((List.range cfg.nRes).flatMap (fun r =>
    [{ name := "Renewable Energy Production Positive - Year " ++ toString y ++
         " - " ++ toString r
       rel := Rel.ge
       lhs := fun ν => ν.res_energy_production (cfg.stepOf y) r - ν.curtailment y r
       rhs := fun _ => 0 },
     { name := "RES ConversionLosses - " ++ toString r ++ " - Year " ++ toString y
       rel := Rel.eq
       lhs := fun ν => (ν.res_energy_production (cfg.stepOf y) r - ν.curtailment y r) *
         (1 - cfg.resInverterEfficiency r)
       rhs := fun ν => ν.res_conversion_losses r y }])) ++
  (if cfg.hasBattery then
    if cfg.anyResConnected then
      [{ name := "DC System Energy - Year " ++ toString y
         rel := Rel.eq
         lhs := fun ν => (ν.battery_outflow y - ν.battery_inflow y) +
           sumRange cfg.nRes (fun r =>
             if cfg.resConnectedToBattery r then
               ν.res_energy_production (cfg.stepOf y) r - ν.curtailment y r
             else 0)
         rhs := fun ν => ν.dc_system_energy y }] ++
      (if cfg.milpFormulation then
        [{ name := "DC System Energy Positive Constraint - Year " ++ toString y
           rel := Rel.le
           lhs := fun ν => ν.dc_system_energy_positive y
           rhs := fun ν => cfg.bigM y * ν.single_flow_dc_system y },
         { name := "DC System Energy Negative Constraint - Year " ++ toString y
           rel := Rel.ge
           lhs := fun ν => ν.dc_system_energy_negative y
           rhs := fun ν => -(cfg.bigM y) * (ν.ones y - ν.single_flow_dc_system y) }]
      else
        [{ name := "DC System Energy Split - Year " ++ toString y
           rel := Rel.eq
           lhs := fun ν => ν.dc_system_energy_positive y + ν.dc_system_energy_negative y
           rhs := fun ν => ν.dc_system_energy y }]) ++
      [{ name := "DC System Energy Positive - Year " ++ toString y
         rel := Rel.ge
         lhs := fun ν => ν.dc_system_energy_positive y
         rhs := fun _ => 0 },
       { name := "DC System Energy Negative - Year " ++ toString y
         rel := Rel.le
         lhs := fun ν => ν.dc_system_energy_negative y
         rhs := fun _ => 0 },
       { name := "DC System Feed In Losses - Year " ++ toString y
         rel := Rel.eq
         lhs := fun ν => ν.dc_system_feed_in_losses y
         rhs := fun ν => ν.dc_system_energy_positive y *
           (1 - cfg.batteryInverterEffDCAC) },
       { name := "DC System Charge Losses - Year " ++ toString y
         rel := Rel.eq
         lhs := fun ν => ν.dc_system_charge_losses y
         rhs := fun ν => ν.dc_system_energy_negative y *
           (1 / cfg.batteryInverterEffACDC - 1) }]
    else
      [{ name := "Battery ConversionLosses - Year " ++ toString y
         rel := Rel.eq
         lhs := fun ν => ν.battery_outflow y * (1 - cfg.batteryInverterEffDCAC) +
           ν.battery_inflow y * (1 / cfg.batteryInverterEffACDC - 1)
         rhs := fun ν => ν.battery_conversion_losses y }]
  else []) ++
  (if cfg.hasGenerator then
    (List.range cfg.nGen).map (fun g =>
      { name := "Generator ConversionLosses - " ++ toString g ++ " - Year " ++ toString y
        rel := Rel.eq
        lhs := fun ν => ν.generator_energy_production y g *
          (1 - cfg.generatorRectifierEfficiency g)
        rhs := fun ν => ν.generator_conversion_losses g y })
  else []) ++
  (if cfg.hasGridConnection then
    [{ name := "Grid ConversionLosses - Year " ++ toString y
       rel := Rel.eq
       lhs := fun ν =>
         if cfg.gridConnectionType = 1 then
           ν.energy_from_grid y * (1 - cfg.gridToMicrogridEfficiency) +
             ν.energy_to_grid y * (1 / cfg.microgridToGridEfficiency - 1)
         else ν.energy_from_grid y * (1 - cfg.gridToMicrogridEfficiency)
       rhs := fun ν => ν.grid_conversion_losses y }]
  else [])

/-- Embedding of `add_energy_balance_constraints`: per year the
auxiliary constraints followed by the exact energy-balance equality. -/
def energyBalanceConstraints (cfg : EBConfig) : List (Constraint EBAssign) :=
  (List.range cfg.nYears).flatMap (fun y =>
    energyBalanceAuxCons cfg y ++ [energyBalanceCon cfg y])

/-- Specification-side yearly production: the flat sum the claim
describes — renewable production at the year's step minus curtailment,
plus battery net outflow, generator production, net grid import and
lost load when those subsystems are enabled. -/
def specYearlyEnergyProduction (cfg : EBConfig) (y : ℕ) (ν : EBAssign) : ℚ :=
  sumRange cfg.nRes (fun r =>
      ν.res_energy_production (cfg.stepOf y) r - ν.curtailment y r) +
    (if cfg.hasBattery then ν.battery_outflow y - ν.battery_inflow y else 0) +
    (if cfg.hasGenerator then
      sumRange cfg.nGen (fun g => ν.generator_energy_production y g) else 0) +
    (if cfg.hasGridConnection then
      if cfg.gridConnectionType = 1 then
        ν.energy_from_grid y - ν.energy_to_grid y
      else ν.energy_from_grid y
    else 0) +
    (if cfg.lostLoadFraction > 0 then ν.lost_load y else 0)

/-- A concrete single-year configuration with one renewable source and
every optional subsystem disabled. -/
def ebCfgEx : EBConfig :=
  { nYears := 1, stepDuration := 1, nRes := 1, nGen := 0
    hasBattery := false, hasGenerator := false, hasGridConnection := false
    gridConnectionType := 0, milpFormulation := false
    lostLoadFraction := 0
    resConnectedToBattery := fun _ => false
    resInverterEfficiency := fun _ => 1
    batteryInverterEffDCAC := 1, batteryInverterEffACDC := 1
    generatorRectifierEfficiency := fun _ => 1
    gridToMicrogridEfficiency := 1, microgridToGridEfficiency := 1
    bigM := fun _ => 1000, demand := fun _ => 100 }

/-! ## TES constraints (`microgridspy/model/constraints/TES_constraints.py`) -/

/-- Static data of the TES module.  Years and periods are zero-based
indices (`first_year = 0`, `first_period = 0`,
`last_period = nPeriods - 1`). -/
structure TESConfig where
  nYears : ℕ
  nPeriods : ℕ
  deltaTime : ℚ
  tesCapacity : ℚ
  tesInitialSoc : ℚ
  storageEff : ℕ → ℕ → ℚ
  maxChargeRate : ℚ
  maxDischargeRate : ℚ

/-- Decision variables of the TES module, all indexed by
(year, period).  `tes_mode` is the binary charge/discharge indicator
(modelled as a rational that the MILP solver restricts to {0,1}). -/
structure TESAssign where
  tes_soc : ℕ → ℕ → ℚ
  tes_charge : ℕ → ℕ → ℚ
  tes_discharge : ℕ → ℕ → ℚ
  tes_mode : ℕ → ℕ → ℚ

/-- The `soc_previous` expression of
`add_tes_state_of_charge_constraints`: the synthetic initial value
`capacity * initial_soc_fraction` for the very first period of the very
first year, the previous year's last period for the first period of a
later year, and the same year's previous period otherwise. -/
def tesSocPrevious (cfg : TESConfig) (y p : ℕ) (ν : TESAssign) : ℚ :=
  if y = 0 ∧ p = 0 then cfg.tesCapacity * cfg.tesInitialSoc
  else if p = 0 then ν.tes_soc (y - 1) (cfg.nPeriods - 1)
  else ν.tes_soc y (p - 1)

/-- The per-period state-of-charge dynamics equality. -/
def tesSocCon (cfg : TESConfig) (y p : ℕ) : Constraint TESAssign :=
  { name := "TES State of Charge Constraint - Year " ++ toString y ++
      ", Period " ++ toString p
    rel := Rel.eq
    lhs := fun ν => ν.tes_soc y p
    rhs := fun ν => tesSocPrevious cfg y p ν * cfg.storageEff y p +
      (ν.tes_charge y p - ν.tes_discharge y p) * cfg.deltaTime }

/-- One unrolled scalar instance of the per-year vectorised
`TES Maximum Charge Constraint`. -/
def tesSocMaxCon (cfg : TESConfig) (y p : ℕ) : Constraint TESAssign :=
  { name := "TES Maximum Charge Constraint - Year " ++ toString y
    rel := Rel.le
    lhs := fun ν => ν.tes_soc y p
    rhs := fun _ => cfg.tesCapacity }

/-- One unrolled scalar instance of the per-year vectorised
`TES Minimum Charge Constraint`. -/
def tesSocMinCon (_cfg : TESConfig) (y p : ℕ) : Constraint TESAssign :=
  { name := "TES Minimum Charge Constraint - Year " ++ toString y
    rel := Rel.ge
    lhs := fun ν => ν.tes_soc y p
    rhs := fun _ => 0 }

/-- Embedding of `add_tes_state_of_charge_constraints`: the dynamics
equality for every (year, period) followed by the per-year SOC upper
and lower bounds. -/
def tesStateOfChargeConstraints (cfg : TESConfig) : List (Constraint TESAssign) :=
  ((List.range cfg.nYears).flatMap (fun y =>
    (List.range cfg.nPeriods).map (fun p => tesSocCon cfg y p))) ++
  ((List.range cfg.nYears).flatMap (fun y =>
    ((List.range cfg.nPeriods).map (fun p => tesSocMaxCon cfg y p)) ++
    ((List.range cfg.nPeriods).map (fun p => tesSocMinCon cfg y p))))

/-- Per-period charge upper bound (`tes_charge <= TES_MAX_CHARGE_RATE`). -/
def tesChargeUBCon (cfg : TESConfig) (y p : ℕ) : Constraint TESAssign :=
  { name := "TES Maximum Charge Flow Constraint - Year " ++ toString y
    rel := Rel.le
    lhs := fun ν => ν.tes_charge y p
    rhs := fun _ => cfg.maxChargeRate }

/-- Per-period discharge upper bound. -/
def tesDischargeUBCon (cfg : TESConfig) (y p : ℕ) : Constraint TESAssign :=
  { name := "TES Maximum Discharge Flow Constraint - Year " ++ toString y
    rel := Rel.le
    lhs := fun ν => ν.tes_discharge y p
    rhs := fun _ => cfg.maxDischargeRate }

/-- Per-period charge non-negativity. -/
def tesChargeLBCon (_cfg : TESConfig) (y p : ℕ) : Constraint TESAssign :=
  { name := "TES Minimum Charge Flow Constraint - Year " ++ toString y
    rel := Rel.ge
    lhs := fun ν => ν.tes_charge y p
    rhs := fun _ => 0 }

/-- Per-period discharge non-negativity. -/
def tesDischargeLBCon (_cfg : TESConfig) (y p : ℕ) : Constraint TESAssign :=
  { name := "TES Minimum Discharge Flow Constraint - Year " ++ toString y
    rel := Rel.ge
    lhs := fun ν => ν.tes_discharge y p
    rhs := fun _ => 0 }

/-- Big-M charge gate: `tes_charge <= M_charge * mode` with
`M_charge = tes_capacity / delta_time`. -/
def tesChargeModeCon (cfg : TESConfig) (y p : ℕ) : Constraint TESAssign :=
  { name := "TES Charge Allowed - Year " ++ toString y ++ " Period " ++ toString p
    rel := Rel.le
    lhs := fun ν => ν.tes_charge y p
    rhs := fun ν => cfg.tesCapacity / cfg.deltaTime * ν.tes_mode y p }

/-- Big-M discharge gate: `tes_discharge <= M_discharge * ((mode*0 + 1)
- mode)` exactly as the Python code writes the complement of the binary
mode. -/
def tesDischargeModeCon (cfg : TESConfig) (y p : ℕ) : Constraint TESAssign :=
  { name := "TES Discharge Allowed - Year " ++ toString y ++ " Period " ++ toString p
    rel := Rel.le
    lhs := fun ν => ν.tes_discharge y p
    rhs := fun ν => cfg.tesCapacity / cfg.deltaTime *
      ((ν.tes_mode y p * 0 + 1) - ν.tes_mode y p) }

/-- Embedding of `add_tes_flow_constraints`: per year the four
vectorised flow bounds (unrolled per period) followed by the two
big-M mode gates per period. -/
def tesFlowConstraints (cfg : TESConfig) : List (Constraint TESAssign) :=
  (List.range cfg.nYears).flatMap (fun y =>
    ((List.range cfg.nPeriods).map (fun p => tesChargeUBCon cfg y p)) ++
    ((List.range cfg.nPeriods).map (fun p => tesDischargeUBCon cfg y p)) ++
    ((List.range cfg.nPeriods).map (fun p => tesChargeLBCon cfg y p)) ++
    ((List.range cfg.nPeriods).map (fun p => tesDischargeLBCon cfg y p)) ++
    ((List.range cfg.nPeriods).flatMap (fun p =>
      [tesChargeModeCon cfg y p, tesDischargeModeCon cfg y p])))

/-- A concrete one-year, two-period TES configuration. -/
def tesCfgEx : TESConfig :=
  { nYears := 1, nPeriods := 2, deltaTime := 1, tesCapacity := 10
    tesInitialSoc := 1/2, storageEff := fun _ _ => 1
    maxChargeRate := 1, maxDischargeRate := 1 }

/-- The idle TES assignment: zero flows, mode 0, SOC constant at the
initial level. -/
def tesNuEx : TESAssign :=
  { tes_soc := fun _ _ => 5
    tes_charge := fun _ _ => 0
    tes_discharge := fun _ _ => 0
    tes_mode := fun _ _ => 0 }

/-- A concrete two-step, one-generator configuration exercising the
capacity-expansion constraints. -/
def capexCfgEx : GenConfig :=
  { nYears := 2, nSteps := 2, nGen := 1, stepDuration := 1
    partialLoad := false, brownfield := false
    nominalCapacity := fun _ => 1, nominalEfficiency := fun _ => 1
    fuelLHV := fun _ => 1, nSamplePoints := 0
    sampledRelativeOutput := fun _ => 0
    sampledEfficiency := fun _ _ => 1
    existingYears := fun _ => 0, lifetime := fun _ => 1
    existingCapacity := fun _ => 0 }

/-- A concrete assignment installing `s` generator units at step `s`. -/
def capexNuEx : GenAssign :=
  { generator_units := fun s _ => (s : ℚ)
    generator_energy_production := fun _ _ => 0
    generator_fuel_consumption := fun _ _ => 0 }

/-! ## Multi-objective Pareto driver
(`Model.solve_multi_objective` and `Model._solve` in
`microgridspy/model/model.py`)

The built linopy model and the external solver are abstracted into a
solver oracle: a function from the current objective and the list of
temporarily added emissions constraints to either a solution or a
raised exception (`Except.error`).  The base model's own constraints
are inside the oracle; the `List NamedCon` argument holds only the
temporary `co2_threshold_i` constraints the driver adds and removes. -/

/-- The two objectives the driver alternates between. -/
inductive Objective where
  | cost
  | emissions
deriving DecidableEq, Repr

/-- The named quantities the driver reads back from a solve:
`solution.get("Total CO2 Emissions")` and the cost objective variable
(`"Net Present Cost"` or `"Total Variable Cost"`). -/
structure Solution where
  totalCO2Emissions : ℚ
  costValue : ℚ
deriving DecidableEq, Repr

/-- A temporarily added emissions constraint: its linopy name and the
upper bound on total emissions. -/
abbrev NamedCon := String × ℚ

/-- Observable actions of the driver on the shared linopy model. -/
inductive Event where
  | solveCall (o : Objective)
  | addCon (name : String)
  | removeCon (name : String)
deriving DecidableEq, Repr

/-- `model.remove_constraints(name)`: drop the constraints with that
name from the model. -/
def removeCon (name : String) (cs : List NamedCon) : List NamedCon :=
  cs.filter (fun c => c.1 != name)

/-- The name of the temporary sweep constraint of iteration `i`
(the code's `co2_threshold_` followed by `i`). -/
def conName (i : ℕ) : String := "co2_threshold_" ++ toString i

/-- `Model._solve`: a raised solver exception `e` is re-raised as
`RuntimeError` with the message `Error during solving: ` ++ `e`. -/
def mSolve (solver : Objective → List NamedCon → Except String Solution)
    (o : Objective) (cs : List NamedCon) : Except String Solution :=
  match solver o cs with
  | Except.error e => Except.error ("Error during solving: " ++ e)
  | Except.ok s => Except.ok s

/-- Error outcome of the driver: the propagated `RuntimeError` message,
the temporary constraints still present in the model when the exception
escapes, and the event trace so far. -/
structure MOError where
  message : String
  cons : List NamedCon
  trace : List Event
deriving DecidableEq, Repr

/-- Normal outcome of the driver: the recorded
`(co2_values[i], npc_values[i])` pairs, the collected solutions, the
temporary constraints still in the model, and the event trace. -/
structure MOOutcome where
  pareto : List (ℚ × ℚ)
  solutions : List Solution
  cons : List NamedCon
  trace : List Event
deriving DecidableEq, Repr

/-- The sweep loop of `solve_multi_objective` (step 3): for each
iteration, compute the threshold, add the temporary constraint, re-set
the cost objective and solve; on success record the pair, remove the
constraint and continue; on an exception propagate it (leaving the
temporary constraint in the model). -/
def sweepAux (solver : Objective → List NamedCon → Except String Solution)
    (minCO2 estep : ℚ) :
    ℕ → ℕ → List NamedCon → List Event → List (ℚ × ℚ) → List Solution →
    Except MOError MOOutcome
  | _, 0, cons, trace, pareto, sols =>
      Except.ok { pareto := pareto, solutions := sols, cons := cons, trace := trace }
  | i, rem + 1, cons, trace, pareto, sols =>
      let threshold := minCO2 + (i : ℚ) * estep
      let cons1 := cons ++ [(conName i, threshold)]
      let trace1 := trace ++ [Event.addCon (conName i), Event.solveCall Objective.cost]
      match mSolve solver Objective.cost cons1 with
      | Except.error e =>
          Except.error { message := e, cons := cons1, trace := trace1 }
      | Except.ok sol =>
          sweepAux solver minCO2 estep (i + 1) rem (removeCon (conName i) cons1)
            (trace1 ++ [Event.removeCon (conName i)])
            (pareto ++ [(threshold, sol.costValue)]) (sols ++ [sol])

/-- Embedding of `Model.solve_multi_objective`: solve minimizing cost
with no emissions constraint and record `max_co2`; solve minimizing
emissions and record `min_co2`; compute
`emission_step = (max_co2 - min_co2) / (num_points - 1)`; then run the
sweep for `i in range(num_points)`.  No validation of `num_points`
takes place anywhere. -/
def solve_multi_objective
    (solver : Objective → List NamedCon → Except String Solution)
    (numPoints : ℕ) : Except MOError MOOutcome :=
  match mSolve solver Objective.cost [] with
  | Except.error e =>
      Except.error
        { message := e
          cons := []
          trace := [Event.solveCall Objective.cost] }
  | Except.ok sol1 =>
    let maxCO2 := sol1.totalCO2Emissions
    match mSolve solver Objective.emissions [] with
    | Except.error e =>
        Except.error
          { message := e
            cons := []
            trace := [Event.solveCall Objective.cost,
              Event.solveCall Objective.emissions] }
    | Except.ok sol2 =>
      let minCO2 := sol2.totalCO2Emissions
      let estep := (maxCO2 - minCO2) / ((numPoints : ℚ) - 1)
      sweepAux solver minCO2 estep 0 numPoints []
        [Event.solveCall Objective.cost, Event.solveCall Objective.emissions]
        [] [sol1, sol2]

/-- Wrap a total solver oracle (one that never raises) as a fallible
one. -/
def okSolver (F : Objective → List NamedCon → Solution) :
    Objective → List NamedCon → Except String Solution :=
  fun o cs => Except.ok (F o cs)

/-- Number of solver invocations recorded in a trace. -/
def countSolves (tr : List Event) : ℕ :=
  tr.countP (fun e => match e with
    | Event.solveCall _ => true
    | _ => false)

/-- A concrete total solver oracle, constant in its inputs. -/
def constSolver : Objective → List NamedCon → Solution :=
  fun _ _ => { totalCO2Emissions := 3, costValue := 7 }

/-- A concrete fallible solver oracle: solves the unconstrained model
but raises on any model with a temporary emissions constraint. -/
def failingSolver : Objective → List NamedCon → Except String Solution :=
  fun _ cs => match cs with
    | [] => Except.ok { totalCO2Emissions := 3, costValue := 7 }
    | _ :: _ => Except.error "infeasible"

/-- `max_co2`: the total emissions of the cost-minimizing anchor solve
with no emissions constraint. -/
def anchorMaxCO2 (F : Objective → List NamedCon → Solution) : ℚ :=
  (F Objective.cost []).totalCO2Emissions

/-- `min_co2`: the total emissions of the emissions-minimizing anchor
solve. -/
def anchorMinCO2 (F : Objective → List NamedCon → Solution) : ℚ :=
  (F Objective.emissions []).totalCO2Emissions

/-- `emission_step = (max_co2 - min_co2) / (num_points - 1)`. -/
def sweepStep (F : Objective → List NamedCon → Solution) (n : ℕ) : ℚ :=
  (anchorMaxCO2 F - anchorMinCO2 F) / ((n : ℚ) - 1)

/-- The emissions threshold of sweep iteration `i`:
`min_co2 + i * emission_step`. -/
def sweepThreshold (F : Objective → List NamedCon → Solution) (n i : ℕ) : ℚ :=
  anchorMinCO2 F + (i : ℚ) * sweepStep F n

/-- The solution of sweep iteration `i`: cost-minimizing solve of the
base model plus exactly the one temporary constraint of iteration `i`
(earlier temporary constraints having been removed). -/
def sweepSolve (F : Objective → List NamedCon → Solution) (n i : ℕ) : Solution :=
  F Objective.cost [(conName i, sweepThreshold F n i)]

/-- The full outcome of a Pareto run against a solver that never
raises. -/
def paretoOutcome (F : Objective → List NamedCon → Solution) (n : ℕ) :
    MOOutcome :=
  { pareto := (List.range n).map (fun i =>
      (sweepThreshold F n i, (sweepSolve F n i).costValue))
    solutions := F Objective.cost [] :: F Objective.emissions [] ::
      (List.range n).map (fun i => sweepSolve F n i)
    cons := []
    trace := [Event.solveCall Objective.cost,
        Event.solveCall Objective.emissions] ++
      (List.range n).flatMap (fun j =>
        [Event.addCon (conName j), Event.solveCall Objective.cost,
          Event.removeCon (conName j)]) }

end MicrogridSpy

/-! # Theorems -/

namespace MicrogridSpy

theorem satisfiesAll_append {σ : Type} (l₁ l₂ : List (Constraint σ)) (ν : σ) :
    satisfiesAll (l₁ ++ l₂) ν ↔ satisfiesAll l₁ ν ∧ satisfiesAll l₂ ν := by
  simp only [satisfiesAll, List.mem_append]
  constructor
  · intro h
    exact ⟨fun c hc => h c (Or.inl hc), fun c hc => h c (Or.inr hc)⟩
  · rintro ⟨h₁, h₂⟩ c (hc | hc)
    · exact h₁ c hc
    · exact h₂ c hc

theorem satisfiesAll_flatMap_range {σ : Type} (n : ℕ)
    (f : ℕ → List (Constraint σ)) (ν : σ) :
    satisfiesAll ((List.range n).flatMap f) ν ↔
      ∀ i < n, satisfiesAll (f i) ν := by
  simp only [satisfiesAll, List.mem_flatMap, List.mem_range]
  constructor
  · intro h i hi c hc
    exact h c ⟨i, hi, hc⟩
  · rintro h c ⟨i, hi, hc⟩
    exact h i hi c hc

theorem satisfiesAll_map_range {σ : Type} (n : ℕ)
    (f : ℕ → Constraint σ) (ν : σ) :
    satisfiesAll ((List.range n).map f) ν ↔ ∀ i < n, (f i).holds ν := by
  simp only [satisfiesAll, List.mem_map, List.mem_range]
  constructor
  · intro h i hi
    exact h (f i) ⟨i, hi, rfl⟩
  · rintro h c ⟨i, hi, rfl⟩
    exact h i hi

theorem satisfiesAll_pair {σ : Type} (c₁ c₂ : Constraint σ) (ν : σ) :
    satisfiesAll [c₁, c₂] ν ↔ c₁.holds ν ∧ c₂.holds ν := by
  simp [satisfiesAll]

theorem satisfiesAll_singleton {σ : Type} (c : Constraint σ) (ν : σ) :
    satisfiesAll [c] ν ↔ c.holds ν := by
  simp [satisfiesAll]

theorem holds_le {σ : Type} (nm : String) (l r : σ → ℚ) (ν : σ) :
    (Constraint.holds { name := nm, rel := Rel.le, lhs := l, rhs := r } ν)
      ↔ l ν ≤ r ν := Iff.rfl

theorem holds_ge {σ : Type} (nm : String) (l r : σ → ℚ) (ν : σ) :
    (Constraint.holds { name := nm, rel := Rel.ge, lhs := l, rhs := r } ν)
      ↔ r ν ≤ l ν := Iff.rfl

theorem holds_eq {σ : Type} (nm : String) (l r : σ → ℚ) (ν : σ) :
    (Constraint.holds { name := nm, rel := Rel.eq, lhs := l, rhs := r } ν)
      ↔ l ν = r ν := Iff.rfl

theorem mem_capex_constraints (cfg : GenConfig) (s g : ℕ)
    (hs : 0 < s) (hs' : s < cfg.nSteps) (hg : g < cfg.nGen) :
    capexCon s g ∈ generatorCapacityExpansionConstraints cfg := by
  unfold generatorCapacityExpansionConstraints
  rw [List.mem_flatMap]
  refine ⟨s, ?_, List.mem_map.mpr ⟨g, List.mem_range.mpr hg, rfl⟩⟩
  cases hn : cfg.nSteps with
  | zero => omega
  | succ m =>
    rw [List.range_eq_range', List.range'_succ]
    simp only [List.drop_succ_cons, List.drop_zero, List.mem_range'_1]
    omega

theorem capex_step_bound (cfg : GenConfig) (ν : GenAssign)
    (hsat : satisfiesAll (generatorCapacityExpansionConstraints cfg) ν)
    (s g : ℕ) (hs : 0 < s) (hs' : s < cfg.nSteps) (hg : g < cfg.nGen) :
    ν.generator_units (s - 1) g ≤ ν.generator_units s g := by
  have h := hsat _ (mem_capex_constraints cfg s g hs hs' hg)
  simpa [capexCon, Constraint.holds] using h

/-- C6: with capacity expansion enabled, for every investment step `s`
after the first, the model contains the constraint
`generator_units[s] >= generator_units[s-1]` (for every generator
type), and consequently any assignment satisfying the generated
constraint set has generator units monotone non-decreasing across
steps. -/
theorem generator_units_monotone_across_steps (cfg : GenConfig) (ν : GenAssign)
    (hsat : satisfiesAll (generatorCapacityExpansionConstraints cfg) ν) :
    (∀ s g, 0 < s → s < cfg.nSteps → g < cfg.nGen →
      capexCon s g ∈ generatorCapacityExpansionConstraints cfg ∧
        ν.generator_units (s - 1) g ≤ ν.generator_units s g) ∧
    (∀ g, g < cfg.nGen → ∀ s t, s ≤ t → t < cfg.nSteps →
      ν.generator_units s g ≤ ν.generator_units t g) := by
  constructor
  · intro s g hs hs' hg
    exact ⟨mem_capex_constraints cfg s g hs hs' hg,
      capex_step_bound cfg ν hsat s g hs hs' hg⟩
  · intro g hg s t hst ht
    induction t, hst using Nat.le_induction with
    | base => exact le_refl _
    | succ t hst ih =>
      have h1 : ν.generator_units s g ≤ ν.generator_units t g := ih (by omega)
      have h2 := capex_step_bound cfg ν hsat (t + 1) g (by omega) ht hg
      simpa using h1.trans (by simpa using h2)

/-- Witness for `generator_units_monotone_across_steps` at a concrete
two-step, one-generator configuration and assignment. -/
theorem generator_units_monotone_across_steps_witness :
    satisfiesAll (generatorCapacityExpansionConstraints capexCfgEx) capexNuEx ∧
      (∀ g, g < capexCfgEx.nGen → ∀ s t, s ≤ t → t < capexCfgEx.nSteps →
        capexNuEx.generator_units s g ≤ capexNuEx.generator_units t g) :=
  ⟨by
    norm_num [generatorCapacityExpansionConstraints, capexCfgEx, capexNuEx,
      satisfiesAll, capexCon, Constraint.holds, List.range_succ],
    (generator_units_monotone_across_steps capexCfgEx capexNuEx (by
      norm_num [generatorCapacityExpansionConstraints, capexCfgEx, capexNuEx,
        satisfiesAll, capexCon, Constraint.holds, List.range_succ])).2⟩

theorem yearlyEnergyProduction_eq_spec (cfg : EBConfig) (y : ℕ) (ν : EBAssign) :
    yearlyEnergyProduction cfg y ν = specYearlyEnergyProduction cfg y ν := by
  unfold yearlyEnergyProduction specYearlyEnergyProduction sumRange
  split_ifs <;> simp only [Finset.sum_sub_distrib] <;> ring

/-- C2: for every year, the energy-balance constraint added to the
model is an exact equality (`Rel.eq`, not an inequality): the yearly
energy production — renewable production at the year's investment step
minus curtailment, plus battery net outflow, generator production, net
grid import and lost load when those subsystems are enabled — minus
the yearly conversion losses equals the DEMAND parameter of that
year. -/
theorem energy_balance_exact_equality (cfg : EBConfig) (y : ℕ)
    (hy : y < cfg.nYears) :
    energyBalanceCon cfg y ∈ energyBalanceConstraints cfg ∧
    (energyBalanceCon cfg y).rel = Rel.eq ∧
    (∀ ν : EBAssign, (energyBalanceCon cfg y).holds ν ↔
      specYearlyEnergyProduction cfg y ν - yearlyConversionLosses cfg y ν =
        cfg.demand y) := by
  refine ⟨?_, rfl, ?_⟩
  · unfold energyBalanceConstraints
    rw [List.mem_flatMap]
    exact ⟨y, List.mem_range.mpr hy,
      List.mem_append_right _ (List.mem_singleton.mpr rfl)⟩
  · intro ν
    simp only [energyBalanceCon, holds_eq]
    rw [yearlyEnergyProduction_eq_spec]

/-- Witness for `energy_balance_exact_equality` at the concrete
single-year configuration. -/
theorem energy_balance_exact_equality_witness :
    (0 < ebCfgEx.nYears) ∧
      energyBalanceCon ebCfgEx 0 ∈ energyBalanceConstraints ebCfgEx :=
  ⟨by norm_num [ebCfgEx],
    (energy_balance_exact_equality ebCfgEx 0 (by norm_num [ebCfgEx])).1⟩

/-- C3: satisfying the generated TES state-of-charge constraint set is
equivalent to: for every (year, period), `soc = soc_previous *
storage_efficiency + (charge - discharge) * delta_time`, where
`soc_previous` is `capacity * initial_soc_fraction` for the very first
period of the very first year, the previous year's last period for the
first period of every later year (wraparound, not a reset), and the
same year's previous period otherwise; together with `0 <= soc <=
capacity` for every (year, period). -/
theorem tes_soc_recurrence_and_bounds (cfg : TESConfig) (ν : TESAssign) :
    satisfiesAll (tesStateOfChargeConstraints cfg) ν ↔
      (∀ y < cfg.nYears, ∀ p < cfg.nPeriods,
        ν.tes_soc y p =
          (if y = 0 ∧ p = 0 then cfg.tesCapacity * cfg.tesInitialSoc
           else if p = 0 then ν.tes_soc (y - 1) (cfg.nPeriods - 1)
           else ν.tes_soc y (p - 1)) * cfg.storageEff y p +
          (ν.tes_charge y p - ν.tes_discharge y p) * cfg.deltaTime) ∧
      (∀ y < cfg.nYears, ∀ p < cfg.nPeriods,
        0 ≤ ν.tes_soc y p ∧ ν.tes_soc y p ≤ cfg.tesCapacity) := by
  unfold tesStateOfChargeConstraints
  rw [satisfiesAll_append]
  simp only [satisfiesAll_flatMap_range, satisfiesAll_append,
    satisfiesAll_map_range, tesSocCon, tesSocMaxCon, tesSocMinCon,
    holds_eq, holds_le, holds_ge, tesSocPrevious]
  constructor
  · rintro ⟨hdyn, hbnd⟩
    exact ⟨hdyn, fun y hy p hp =>
      ⟨(hbnd y hy).2 p hp, (hbnd y hy).1 p hp⟩⟩
  · rintro ⟨hdyn, hbnd⟩
    exact ⟨hdyn, fun y hy =>
      ⟨fun p hp => (hbnd y hy p hp).2, fun p hp => (hbnd y hy p hp).1⟩⟩

theorem tesFlow_key (cfg : TESConfig) (ν : TESAssign)
    (hsat : satisfiesAll (tesFlowConstraints cfg) ν) :
    ∀ y < cfg.nYears, ∀ p < cfg.nPeriods,
      0 ≤ ν.tes_charge y p ∧ 0 ≤ ν.tes_discharge y p ∧
      ν.tes_charge y p ≤ cfg.tesCapacity / cfg.deltaTime * ν.tes_mode y p ∧
      ν.tes_discharge y p ≤ cfg.tesCapacity / cfg.deltaTime *
        ((ν.tes_mode y p * 0 + 1) - ν.tes_mode y p) := by
  intro y hy p hp
  unfold tesFlowConstraints at hsat
  have hy' := (satisfiesAll_flatMap_range _ _ _).mp hsat y hy
  rw [satisfiesAll_append] at hy'
  obtain ⟨hrest, hmode⟩ := hy'
  rw [satisfiesAll_append] at hrest
  obtain ⟨hrest, hdlb⟩ := hrest
  rw [satisfiesAll_append] at hrest
  obtain ⟨hrest, hclb⟩ := hrest
  have h1 := (satisfiesAll_map_range _ _ _).mp hclb p hp
  have h2 := (satisfiesAll_map_range _ _ _).mp hdlb p hp
  have h3 := (satisfiesAll_flatMap_range _ _ _).mp hmode p hp
  rw [satisfiesAll_pair] at h3
  obtain ⟨h4, h5⟩ := h3
  rw [tesChargeLBCon, holds_ge] at h1
  rw [tesDischargeLBCon, holds_ge] at h2
  rw [tesChargeModeCon, holds_le] at h4
  rw [tesDischargeModeCon, holds_le] at h5
  exact ⟨h1, h2, h4, h5⟩

/-- C4: the TES flow constraints impose `charge <= M * mode` and
`discharge <= M * (1 - mode)` with `M = tes_capacity / delta_time`;
consequently, in every assignment satisfying them in which the mode
variable is binary, charge and discharge cannot both be strictly
positive: `charge * discharge == 0` for every (year, period). -/
theorem tes_mode_exclusivity (cfg : TESConfig) (ν : TESAssign)
    (hsat : satisfiesAll (tesFlowConstraints cfg) ν) :
    (∀ y < cfg.nYears, ∀ p < cfg.nPeriods,
      ν.tes_charge y p ≤ cfg.tesCapacity / cfg.deltaTime * ν.tes_mode y p ∧
      ν.tes_discharge y p ≤
        cfg.tesCapacity / cfg.deltaTime * (1 - ν.tes_mode y p)) ∧
    ((∀ y < cfg.nYears, ∀ p < cfg.nPeriods,
        ν.tes_mode y p = 0 ∨ ν.tes_mode y p = 1) →
      ∀ y < cfg.nYears, ∀ p < cfg.nPeriods,
        ν.tes_charge y p * ν.tes_discharge y p = 0) := by
  have key := tesFlow_key cfg ν hsat
  constructor
  · intro y hy p hp
    obtain ⟨_, _, h4, h5⟩ := key y hy p hp
    refine ⟨h4, ?_⟩
    calc ν.tes_discharge y p
        ≤ cfg.tesCapacity / cfg.deltaTime *
            ((ν.tes_mode y p * 0 + 1) - ν.tes_mode y p) := h5
      _ = cfg.tesCapacity / cfg.deltaTime * (1 - ν.tes_mode y p) := by ring
  · intro hbin y hy p hp
    obtain ⟨h1, h2, h4, h5⟩ := key y hy p hp
    rcases hbin y hy p hp with h0 | h0
    · have hch : ν.tes_charge y p = 0 := by
        have : ν.tes_charge y p ≤ 0 := by
          simpa [h0] using h4
        linarith
      rw [hch, zero_mul]
    · have hdis : ν.tes_discharge y p = 0 := by
        have : ν.tes_discharge y p ≤ 0 := by
          have := h5
          rw [h0] at this
          simpa using this
        linarith
      rw [hdis, mul_zero]

/-- Witness for `tes_mode_exclusivity`: the idle assignment on the
concrete one-year TES configuration. -/
theorem tes_mode_exclusivity_witness :
    satisfiesAll (tesFlowConstraints tesCfgEx) tesNuEx ∧
      tesNuEx.tes_charge 0 0 * tesNuEx.tes_discharge 0 0 = 0 :=
  ⟨by
    norm_num [tesFlowConstraints, tesCfgEx, tesNuEx, satisfiesAll,
      Constraint.holds, tesChargeUBCon, tesDischargeUBCon, tesChargeLBCon,
      tesDischargeLBCon, tesChargeModeCon, tesDischargeModeCon,
      List.range_succ],
    (tes_mode_exclusivity tesCfgEx tesNuEx (by
      norm_num [tesFlowConstraints, tesCfgEx, tesNuEx, satisfiesAll,
        Constraint.holds, tesChargeUBCon, tesDischargeUBCon, tesChargeLBCon,
        tesDischargeLBCon, tesChargeModeCon, tesDischargeModeCon,
        List.range_succ])).2
      (fun _ _ _ _ => Or.inl rfl) 0 (by norm_num [tesCfgEx]) 0
      (by norm_num [tesCfgEx])⟩

/-- C5: satisfying the generated fuel-consumption constraint set is
equivalent to: with partial-load modelling enabled, for every year,
generator type and segment, fuel consumption is lower-bounded by the
secant line `slope * (energy - p0 * units) + fc0 * units` (slope taken
as `0` when `p1 = p0`); with partial-load modelling disabled, fuel
consumption equals `energy / (nominal_efficiency * fuel_LHV)`. -/
theorem generator_fuel_consumption_spec (cfg : GenConfig) (ν : GenAssign) :
    satisfiesAll (generatorFuelConsumptionConstraints cfg) ν ↔
      ∀ y < cfg.nYears, ∀ g < cfg.nGen,
        (cfg.partialLoad = true →
          ∀ seg < cfg.nSamplePoints - 1,
            (let p0 := cfg.sampledRelativeOutput seg * cfg.nominalCapacity g
             let p1 := cfg.sampledRelativeOutput (seg + 1) * cfg.nominalCapacity g
             let fc0 := p0 / (cfg.sampledEfficiency seg g * cfg.fuelLHV g)
             let fc1 := p1 / (cfg.sampledEfficiency (seg + 1) g * cfg.fuelLHV g)
             let slope := if p1 = p0 then 0 else (fc1 - fc0) / (p1 - p0)
             slope * (ν.generator_energy_production y g -
                 p0 * ν.generator_units (cfg.stepOf y) g) +
               fc0 * ν.generator_units (cfg.stepOf y) g
               ≤ ν.generator_fuel_consumption y g)) ∧
        (cfg.partialLoad = false →
          ν.generator_fuel_consumption y g =
            ν.generator_energy_production y g /
              (cfg.nominalEfficiency g * cfg.fuelLHV g)) := by
  unfold generatorFuelConsumptionConstraints
  rw [satisfiesAll_flatMap_range]
  cases hpl : cfg.partialLoad with
  | false =>
    simp only [hpl, satisfiesAll_flatMap_range, satisfiesAll_singleton,
      genFuelEqCon, holds_eq, Bool.false_eq_true, false_implies,
      true_and, and_true, forall_const, true_implies]
  | true =>
    simp only [hpl, satisfiesAll_flatMap_range, satisfiesAll_map_range,
      genFuelSegCon, holds_ge, Bool.true_eq_false, false_implies,
      true_and, and_true, forall_const, true_implies]
    constructor
    · intro h y hy g hg seg hseg
      have hs := h y hy g hg seg hseg
      rcases eq_or_ne (cfg.sampledRelativeOutput (seg + 1) * cfg.nominalCapacity g)
          (cfg.sampledRelativeOutput seg * cfg.nominalCapacity g) with he | he
      · rw [if_pos he]
        rw [if_neg (by rw [he]; simp)] at hs
        exact hs
      · rw [if_neg he]
        rw [if_pos (sub_ne_zero.mpr he)] at hs
        exact hs
    · intro h y hy g hg seg hseg
      have hs := h y hy g hg seg hseg
      rcases eq_or_ne (cfg.sampledRelativeOutput (seg + 1) * cfg.nominalCapacity g)
          (cfg.sampledRelativeOutput seg * cfg.nominalCapacity g) with he | he
      · rw [if_pos he] at hs
        rw [if_neg (by rw [he]; simp)]
        exact hs
      · rw [if_neg he] at hs
        rw [if_pos (sub_ne_zero.mpr he)]
        exact hs

/-- C7 (amended): under brownfield mode the maximum-production bound
for year offset `y` includes the existing capacity exactly when
`existing_years + (y - years[0]) <= lifetime`; for the concrete
scenario `existing_years = 9`, `lifetime = 10`, `years[0] = 0`, the
existing capacity is available at year 1 and excluded at years 2
and 5. -/
theorem brownfield_existing_capacity_rule (cfg : GenConfig) (y g : ℕ)
    (hy : y < cfg.nYears) (hg : g < cfg.nGen) :
    (brownfieldMaxProdCon cfg y g ∈
        generatorMaxProductionBrownfieldConstraints cfg) ∧
    (∀ ν : GenAssign, (brownfieldMaxProdCon cfg y g).rhs ν =
      ν.generator_units (cfg.stepOf y) g * cfg.nominalCapacity g +
        (if cfg.existingYears g + (y : ℚ) ≤ cfg.lifetime g then
          cfg.existingCapacity g else 0)) ∧
    (GenConfig.includesExisting cfg g y ↔
      cfg.existingYears g + (y : ℚ) ≤ cfg.lifetime g) ∧
    (GenConfig.includesExisting brownfieldCfgEx 0 1 ∧
      ¬ GenConfig.includesExisting brownfieldCfgEx 0 2 ∧
      ¬ GenConfig.includesExisting brownfieldCfgEx 0 5) := by
  refine ⟨?_, ?_, Iff.rfl,
    by norm_num [GenConfig.includesExisting, brownfieldCfgEx],
    by norm_num [GenConfig.includesExisting, brownfieldCfgEx],
    by norm_num [GenConfig.includesExisting, brownfieldCfgEx]⟩
  · unfold generatorMaxProductionBrownfieldConstraints
    rw [List.mem_flatMap]
    exact ⟨y, List.mem_range.mpr hy,
      List.mem_map.mpr ⟨g, List.mem_range.mpr hg, rfl⟩⟩
  · intro ν
    by_cases hle : cfg.existingYears g + (y : ℚ) ≤ cfg.lifetime g
    · simp only [brownfieldMaxProdCon]
      rw [if_neg (not_lt.mpr hle), if_pos hle]
    · simp only [brownfieldMaxProdCon]
      rw [if_pos (not_le.mp hle), if_neg hle]

/-- Witness for `brownfield_existing_capacity_rule` at the concrete
brownfield configuration, year 1, generator 0. -/
theorem brownfield_existing_capacity_rule_witness :
    (1 < brownfieldCfgEx.nYears) ∧ (0 < brownfieldCfgEx.nGen) ∧
      brownfieldMaxProdCon brownfieldCfgEx 1 0 ∈
        generatorMaxProductionBrownfieldConstraints brownfieldCfgEx :=
  ⟨by norm_num [brownfieldCfgEx], by norm_num [brownfieldCfgEx],
    (brownfield_existing_capacity_rule brownfieldCfgEx 1 0
      (by norm_num [brownfieldCfgEx]) (by norm_num [brownfieldCfgEx])).1⟩

/-- C7 counterexample: for the claim's concrete scenario
(`existing_years = 9`, `lifetime = 10`, `years[0] = 0`) the code
excludes the existing capacity already at year 2, because
`9 + 2 = 11 > 10`: the generated bound at year 2 is `units *
nominal_capacity` without the existing capacity, contradicting the
claim that the existing capacity is still available at year 2. -/
theorem brownfield_year2_excluded_counterexample :
    ¬ GenConfig.includesExisting brownfieldCfgEx 0 2 ∧
      ((generatorMaxProductionBrownfieldConstraints brownfieldCfgEx)[2]?).map
          (fun c => c.rhs brownfieldNuEx) = some 5 ∧
      (5 : ℚ) ≠ brownfieldNuEx.generator_units 2 0 *
          brownfieldCfgEx.nominalCapacity 0 +
          brownfieldCfgEx.existingCapacity 0 := by
  refine ⟨by norm_num [GenConfig.includesExisting, brownfieldCfgEx], ?_,
    by norm_num [brownfieldNuEx, brownfieldCfgEx]⟩
  norm_num [generatorMaxProductionBrownfieldConstraints, brownfieldCfgEx,
    brownfieldNuEx, brownfieldMaxProdCon, GenConfig.stepOf, List.range_succ]

/-- C9: the discount rate computed by `operate_discount_rate` matches
the specification formula: with WACC enabled and nonzero equity it is
`debt/equity * cost_of_debt*(1-tax)/(1+leverage) +
cost_of_equity/(1+leverage)` with `leverage = debt/equity`; with zero
equity it is `cost_of_debt*(1-tax)`; with WACC disabled it is the
user-supplied discount rate. -/
theorem operate_discount_rate_spec (d : FinanceData) :
    (d.wacc_calculation = 1 → d.equity_share ≠ 0 →
      operate_discount_rate d =
        d.debt_share / d.equity_share * (d.cost_of_debt * (1 - d.tax)) /
            (1 + d.debt_share / d.equity_share) +
          d.cost_of_equity / (1 + d.debt_share / d.equity_share)) ∧
    (d.wacc_calculation = 1 → d.equity_share = 0 →
      operate_discount_rate d = d.cost_of_debt * (1 - d.tax)) ∧
    (d.wacc_calculation ≠ 1 → operate_discount_rate d = d.discount_rate) := by
  refine ⟨?_, ?_, ?_⟩
  · intro h1 h2
    simp only [operate_discount_rate, if_pos h1, if_neg h2]
    ring
  · intro h1 h2
    simp [operate_discount_rate, h1, h2]
  · intro h1
    simp [operate_discount_rate, h1]

theorem mSolve_okSolver (F : Objective → List NamedCon → Solution)
    (o : Objective) (cs : List NamedCon) :
    mSolve (okSolver F) o cs = Except.ok (F o cs) := rfl

theorem removeCon_single (n : String) (q : ℚ) :
    removeCon n [(n, q)] = [] := by
  simp [removeCon]

theorem sweepAux_ok (F : Objective → List NamedCon → Solution)
    (minCO2 estep : ℚ) :
    ∀ rem i trace pareto sols,
      sweepAux (okSolver F) minCO2 estep i rem [] trace pareto sols =
        Except.ok
          { pareto := pareto ++ (List.range' i rem).map (fun j : ℕ =>
              (minCO2 + (j : ℚ) * estep,
                (F Objective.cost
                  [(conName j, minCO2 + (j : ℚ) * estep)]).costValue))
            solutions := sols ++ (List.range' i rem).map (fun j : ℕ =>
              F Objective.cost [(conName j, minCO2 + (j : ℚ) * estep)])
            cons := []
            trace := trace ++ (List.range' i rem).flatMap (fun j : ℕ =>
              [Event.addCon (conName j), Event.solveCall Objective.cost,
                Event.removeCon (conName j)]) } := by
  intro rem
  induction rem with
  | zero =>
    intro i trace pareto sols
    simp [sweepAux, List.range']
  | succ rem ih =>
    intro i trace pareto sols
    simp only [sweepAux, mSolve_okSolver, List.nil_append, removeCon_single]
    rw [ih]
    simp [List.range'_succ, List.append_assoc]

theorem countSolves_append (l₁ l₂ : List Event) :
    countSolves (l₁ ++ l₂) = countSolves l₁ + countSolves l₂ :=
  List.countP_append _ _ _

theorem countSolves_sweepBlock : ∀ (n i : ℕ),
    countSolves ((List.range' i n).flatMap (fun j =>
      [Event.addCon (conName j), Event.solveCall Objective.cost,
        Event.removeCon (conName j)])) = n := by
  intro n
  induction n with
  | zero => intro i; simp [countSolves]
  | succ m ih =>
    intro i
    rw [List.range'_succ, List.flatMap_cons, countSolves_append, ih]
    have hone : countSolves [Event.addCon (conName i),
        Event.solveCall Objective.cost, Event.removeCon (conName i)] = 1 := rfl
    rw [hone]
    omega

/-- C1: for `num_points >= 2` and a solver that never raises, the
Pareto driver records `max_co2` from the cost-anchor solve and
`min_co2` from the emissions-anchor solve, and for each
`i in 0..num_points-1` solves the base model plus exactly the one
temporary constraint bounding emissions by
`min_co2 + i*(max_co2 - min_co2)/(num_points-1)`, records the pair
(threshold, cost), and removes the temporary constraint before the
next iteration (the final model carries no temporary constraint); for
`num_points = 2` the recorded thresholds are exactly `[min_co2,
max_co2]` with no intermediate points. -/
theorem pareto_sweep_success (F : Objective → List NamedCon → Solution)
    (n : ℕ) (hn : 2 ≤ n) :
    ∃ out : MOOutcome,
      solve_multi_objective (okSolver F) n = Except.ok out ∧
      out.pareto = (List.range n).map (fun i =>
        (sweepThreshold F n i, (sweepSolve F n i).costValue)) ∧
      out.solutions = F Objective.cost [] :: F Objective.emissions [] ::
        (List.range n).map (fun i => sweepSolve F n i) ∧
      out.cons = [] ∧
      (n = 2 → out.pareto.map Prod.fst = [anchorMinCO2 F, anchorMaxCO2 F]) := by
  refine ⟨paretoOutcome F n, ?_, rfl, rfl, rfl, ?_⟩
  · simp only [solve_multi_objective, mSolve_okSolver]
    rw [sweepAux_ok]
    simp [paretoOutcome, sweepThreshold, sweepStep, sweepSolve, anchorMinCO2,
      anchorMaxCO2, List.range_eq_range']
  · intro h2
    subst h2
    have h01 : List.range 2 = [0, 1] := rfl
    simp only [paretoOutcome, h01, List.map_cons, List.map_nil]
    have ht0 : sweepThreshold F 2 0 = anchorMinCO2 F := by
      simp [sweepThreshold]
    have ht1 : sweepThreshold F 2 1 = anchorMaxCO2 F := by
      simp only [sweepThreshold, sweepStep]
      push_cast
      ring_nf
    rw [ht0, ht1]

/-- Witness for `pareto_sweep_success`: the constant solver with
`num_points = 2`. -/
theorem pareto_sweep_success_witness :
    2 ≤ 2 ∧
      (∃ out : MOOutcome,
        solve_multi_objective (okSolver constSolver) 2 = Except.ok out ∧
        out.pareto = (List.range 2).map (fun i =>
          (sweepThreshold constSolver 2 i,
            (sweepSolve constSolver 2 i).costValue)) ∧
        out.solutions = constSolver Objective.cost [] ::
          constSolver Objective.emissions [] ::
          (List.range 2).map (fun i => sweepSolve constSolver 2 i) ∧
        out.cons = [] ∧
        (2 = 2 → out.pareto.map Prod.fst =
          [anchorMinCO2 constSolver, anchorMaxCO2 constSolver])) :=
  ⟨le_refl 2, pareto_sweep_success constSolver 2 (le_refl 2)⟩

/-- C8 counterexample: calling `solve_multi_objective` with
`num_points = 1` (< 2) raises no configuration error at all — the run
returns normally after three solver calls (the two anchors and one
sweep iteration), so in particular no error is raised before solving
begins, and the step-size expression is evaluated with the zero
denominator `num_points - 1 = 0`. -/
theorem pareto_numpoints_one_counterexample :
    solve_multi_objective (okSolver constSolver) 1 =
      Except.ok
        { pareto := [(3, 7)]
          solutions := [{ totalCO2Emissions := 3, costValue := 7 },
            { totalCO2Emissions := 3, costValue := 7 },
            { totalCO2Emissions := 3, costValue := 7 }]
          cons := []
          trace := [Event.solveCall Objective.cost,
            Event.solveCall Objective.emissions,
            Event.addCon (conName 0), Event.solveCall Objective.cost,
            Event.removeCon (conName 0)] } ∧
      countSolves [Event.solveCall Objective.cost,
        Event.solveCall Objective.emissions, Event.addCon (conName 0),
        Event.solveCall Objective.cost, Event.removeCon (conName 0)] = 3 := by
  constructor
  · simp only [solve_multi_objective, mSolve_okSolver]
    rw [sweepAux_ok]
    norm_num [constSolver, List.range']
  · rfl

/-- C8 (amended): `solve_multi_objective` performs no validation of
`num_points`: for every total solver and every `num_points` — values
below 2 included — the call returns normally, the first two recorded
events are the two anchor solves (so no configuration error precedes
solving), and in total `2 + num_points` solver calls are made. -/
theorem pareto_no_numpoints_validation
    (F : Objective → List NamedCon → Solution) (n : ℕ) :
    ∃ out : MOOutcome,
      solve_multi_objective (okSolver F) n = Except.ok out ∧
      out.trace.take 2 = [Event.solveCall Objective.cost,
        Event.solveCall Objective.emissions] ∧
      countSolves out.trace = 2 + n := by
  refine ⟨paretoOutcome F n, ?_, rfl, ?_⟩
  · simp only [solve_multi_objective, mSolve_okSolver]
    rw [sweepAux_ok]
    simp [paretoOutcome, sweepThreshold, sweepStep, sweepSolve, anchorMinCO2,
      anchorMaxCO2, List.range_eq_range']
  · show countSolves ([Event.solveCall Objective.cost,
      Event.solveCall Objective.emissions] ++ _) = 2 + n
    rw [countSolves_append, List.range_eq_range', countSolves_sweepBlock]
    rfl

theorem sweepAux_error
    (S : Objective → List NamedCon → Except String Solution)
    (minCO2 estep : ℚ) (k : ℕ) (e : String)
    (herr : S Objective.cost [(conName k, minCO2 + (k : ℚ) * estep)] =
      Except.error e)
    (hsucc : ∀ i, i < k →
      (S Objective.cost [(conName i, minCO2 + (i : ℚ) * estep)]).isOk = true) :
    ∀ m i, i + m = k → ∀ rem, k - i < rem → ∀ trace pareto sols,
      ∃ tr, sweepAux S minCO2 estep i rem [] trace pareto sols =
        Except.error
          { message := "Error during solving: " ++ e
            cons := [(conName k, minCO2 + (k : ℚ) * estep)]
            trace := tr } := by
  intro m
  induction m with
  | zero =>
    intro i hik rem hrem trace pareto sols
    obtain rfl : i = k := by omega
    obtain ⟨rem', rfl⟩ : ∃ rem', rem = rem' + 1 := ⟨rem - 1, by omega⟩
    refine ⟨trace ++ [Event.addCon (conName i),
      Event.solveCall Objective.cost], ?_⟩
    simp only [sweepAux, List.nil_append, mSolve, herr]
  | succ m ih =>
    intro i hik rem hrem trace pareto sols
    obtain ⟨rem', rfl⟩ : ∃ rem', rem = rem' + 1 := ⟨rem - 1, by omega⟩
    have hiok := hsucc i (by omega)
    cases hS : S Objective.cost [(conName i, minCO2 + (i : ℚ) * estep)] with
    | error e' =>
      rw [hS] at hiok
      simp [Except.isOk, Except.toBool] at hiok
    | ok s =>
      obtain ⟨tr, htr⟩ := ih (i + 1) (by omega) rem' (by omega)
        ((trace ++ [Event.addCon (conName i), Event.solveCall Objective.cost]) ++
          [Event.removeCon (conName i)])
        (pareto ++ [(minCO2 + (i : ℚ) * estep, s.costValue)]) (sols ++ [s])
      refine ⟨tr, ?_⟩
      simp only [sweepAux, List.nil_append, mSolve, hS]
      rw [removeCon_single]
      exact htr

/-- C10: if the solver call of sweep iteration `k` raises an exception
(after both anchors and the earlier iterations succeeded), the
exception propagates out of `solve_multi_objective` wrapped as a
RuntimeError with message `Error during solving: …`, and the
temporary constraint `co2_threshold_k` is still in the model when the
exception escapes — removal happens only on the success path of the
iteration. -/
theorem pareto_sweep_error_leaves_constraint
    (S : Objective → List NamedCon → Except String Solution)
    (n k : ℕ) (hk : k < n) (s1 s2 : Solution) (e : String)
    (h1 : S Objective.cost [] = Except.ok s1)
    (h2 : S Objective.emissions [] = Except.ok s2)
    (hsucc : ∀ i, i < k → (S Objective.cost [(conName i,
      s2.totalCO2Emissions + (i : ℚ) *
        ((s1.totalCO2Emissions - s2.totalCO2Emissions) /
          ((n : ℚ) - 1)))]).isOk = true)
    (herr : S Objective.cost [(conName k,
      s2.totalCO2Emissions + (k : ℚ) *
        ((s1.totalCO2Emissions - s2.totalCO2Emissions) /
          ((n : ℚ) - 1)))] = Except.error e) :
    ∃ err : MOError,
      solve_multi_objective S n = Except.error err ∧
      err.message = "Error during solving: " ++ e ∧
      err.cons = [(conName k,
        s2.totalCO2Emissions + (k : ℚ) *
          ((s1.totalCO2Emissions - s2.totalCO2Emissions) /
            ((n : ℚ) - 1)))] := by
  obtain ⟨tr, htr⟩ := sweepAux_error S s2.totalCO2Emissions
    ((s1.totalCO2Emissions - s2.totalCO2Emissions) / ((n : ℚ) - 1)) k e herr
    hsucc k 0 (by omega) n (by omega)
    [Event.solveCall Objective.cost, Event.solveCall Objective.emissions]
    [] [s1, s2]
  refine
    ⟨{ message := "Error during solving: " ++ e
       cons := [(conName k, s2.totalCO2Emissions + (k : ℚ) *
         ((s1.totalCO2Emissions - s2.totalCO2Emissions) / ((n : ℚ) - 1)))]
       trace := tr },
     ?_, rfl, rfl⟩
  simp only [solve_multi_objective, mSolve, h1, h2]
  exact htr

/-- Witness for `pareto_sweep_error_leaves_constraint`: a solver that
solves both anchors but raises on the first constrained sweep solve
(`k = 0`, `num_points = 2`). -/
theorem pareto_sweep_error_leaves_constraint_witness :
    ∃ err : MOError,
      solve_multi_objective failingSolver 2 = Except.error err ∧
      err.message = "Error during solving: " ++ "infeasible" ∧
      err.cons = [(conName 0, (3 : ℚ) + ((0 : ℕ) : ℚ) *
        (((3 : ℚ) - 3) / (((2 : ℕ) : ℚ) - 1)))] :=
  pareto_sweep_error_leaves_constraint failingSolver 2 0 (by omega)
    { totalCO2Emissions := 3, costValue := 7 }
    { totalCO2Emissions := 3, costValue := 7 } "infeasible" rfl rfl
    (fun i hi => absurd hi (Nat.not_lt_zero i)) rfl

/-- Witness for `operate_discount_rate_spec` at a concrete financing
configuration (equal debt and equity shares). -/
theorem operate_discount_rate_spec_witness :
    (1 = 1) ∧ ((1 : ℚ) / 2 ≠ 0) ∧
      operate_discount_rate
          { wacc_calculation := 1, equity_share := 1/2, debt_share := 1/2
            cost_of_debt := 1/10, tax := 1/5, cost_of_equity := 3/20
            discount_rate := 0 } =
        (1 : ℚ)/2 / (1/2) * (1/10 * (1 - 1/5)) / (1 + (1/2) / (1/2)) +
          3/20 / (1 + (1/2) / (1/2)) :=
  ⟨rfl, by norm_num,
    (operate_discount_rate_spec
      { wacc_calculation := 1, equity_share := 1/2, debt_share := 1/2
        cost_of_debt := 1/10, tax := 1/5, cost_of_equity := 3/20
        discount_rate := 0 }).1 rfl (by norm_num)⟩

end MicrogridSpy
